import Mathlib

/-!
Verification of the multi-tenant CRM / real-estate API
(`omerpanay/real-estate-agencies`).

This file is a shallow embedding of the repository's tenant-scoped
authorization core:

* `app/core/security.py` — JWT issuing (`create_access_token`) and
  verification (`decode_access_token`);
* `app/api/deps.py` — the identity resolver (`get_current_user`);
* `app/api/v1/endpoints/auth.py` — the login endpoint;
* `app/api/v1/endpoints/contacts.py`, `deals.py`, `properties.py` —
  tenant-scoped CRUD endpoints for Contact, Deal, Property, Viewing.

Modelling conventions:
* UUIDs and timestamps are `Nat`; `datetime.utcnow()` and `uuid.uuid4()`
  are passed in as explicit parameters (`now`, `newId`).
* The relational store is a `DB` structure of lists; `scalar_one_or_none`
  on a primary-key-filtered query is `List.find?` (claims that need
  primary-key uniqueness state it as a hypothesis).
* JWT payloads are ordered association lists of claim values; Python's
  `dict.update` is `dictUpdate` below (replace in place, append new keys).
* The HS256 signature is modelled abstractly: a token records the secret
  it was signed with, and signature verification succeeds exactly when
  that secret equals the configured one.
-/

namespace RealEstateAPI

/-- A JSON claim value as it appears in a JWT payload.
`uuidStr u` stands for the string `str(u)` of a UUID `u` (the form written
by `create_access_token` and accepted by `UUID(...)`); `numVal` is a JSON
number (e.g. `exp`, `iat` timestamps); `strVal` is any other string, which
`UUID(...)` rejects.  String-encoded numbers are outside the model. -/
inductive JVal where
  | uuidStr (u : Nat)
  | numVal (n : Nat)
  | strVal (s : String)
deriving DecidableEq

/-- A JWT payload: an insertion-ordered dictionary of claims. -/
abbrev ClaimsD := List (String × JVal)

/-- Model of `d[k]` lookup on a Python dict: the value at the first (unique) binding. -/
def dictGet (d : ClaimsD) (k : String) : Option JVal :=
  (d.find? (fun kv => kv.1 == k)).map (fun kv => kv.2)

/-- Model of `d[k] = v` on a Python dict: replace the existing binding in place,
or append the key at the end. -/
def dictSet (d : ClaimsD) (k : String) (v : JVal) : ClaimsD :=
  if d.any (fun kv => kv.1 == k) then
    d.map (fun kv => if kv.1 == k then (k, v) else kv)
  else
    d ++ [(k, v)]

/-- Model of `d.update(u)` on Python dicts: set each binding of `u` in turn. -/
def dictUpdate (d u : ClaimsD) : ClaimsD :=
  u.foldl (fun acc kv => dictSet acc kv.1 kv.2) d

/-- Model of `settings.JWT_SECRET` from `app/core/config.py`. -/
def JWT_SECRET : String := "jwtdffdgdfg513216sf1641"

/-- Model of `settings.ACCESS_TOKEN_EXPIRE_MINUTES` from `app/core/config.py`. -/
def ACCESS_TOKEN_EXPIRE_MINUTES : Nat := 30

/-- A signed JWT.  `signedWith` is the key the token was signed with;
verification against `JWT_SECRET` succeeds iff they are equal.
This abstracts the HS256 signature of the `jose` library. -/
structure JwtToken where
  payload : ClaimsD
  signedWith : String
deriving DecidableEq

/-- Model of `create_access_token` from `app/core/security.py`.

Python computes `expire = utcnow() + expires_delta` when `expires_delta`
is truthy (a non-`None`, non-zero `timedelta`), else
`utcnow() + timedelta(minutes=ACCESS_TOKEN_EXPIRE_MINUTES)`; builds the
claims dict with `sub = str(user_id)`, `tenant_id = str(tenant_id)`,
`exp`, `iat`, `type = "access"`; then, when `additional_claims` is truthy
(non-empty), runs `to_encode.update(additional_claims)`; and signs with
`settings.JWT_SECRET`.  (`dictUpdate` with an empty list is the identity,
so Python's truthiness test on the dict needs no separate branch.) -/
def create_access_token (user_id tenant_id : Nat) (now : Nat)
    (expires_delta : Option Nat) (additional_claims : ClaimsD) : JwtToken :=
  let expire : Nat :=
    match expires_delta with
    | some d => if d = 0 then now + ACCESS_TOKEN_EXPIRE_MINUTES * 60 else now + d
    | none => now + ACCESS_TOKEN_EXPIRE_MINUTES * 60
  let to_encode : ClaimsD :=
    [("sub", JVal.uuidStr user_id),
     ("tenant_id", JVal.uuidStr tenant_id),
     ("exp", JVal.numVal expire),
     ("iat", JVal.numVal now),
     ("type", JVal.strVal "access")]
  let to_encode := dictUpdate to_encode additional_claims
  { payload := to_encode, signedWith := JWT_SECRET }

/-- The registered-claim validation performed by `jose.jwt.decode` with
default options, as relied on by `decode_access_token`.  Per the spec's
Token Codec contract, expiry is checked as `expires_at > now`; `nbf` must
not be in the future; `iat` must be numeric when present; an `aud` claim
is rejected because the call site passes no audience; `sub` and `jti`
must be strings when present. -/
def claimsValid (p : ClaimsD) (now : Nat) : Bool :=
  (match dictGet p "exp" with
   | none => true
   | some (JVal.numVal e) => decide (now < e)
   | some _ => false) &&
  (match dictGet p "nbf" with
   | none => true
   | some (JVal.numVal n) => decide (n ≤ now)
   | some _ => false) &&
  (match dictGet p "iat" with
   | none => true
   | some (JVal.numVal _) => true
   | some _ => false) &&
  (match dictGet p "aud" with
   | none => true
   | some _ => false) &&
  (match dictGet p "sub" with
   | some (JVal.numVal _) => false
   | _ => true) &&
  (match dictGet p "jti" with
   | some (JVal.numVal _) => false
   | _ => true)

/-- Model of `decode_access_token` from `app/core/security.py`: `jose.jwt.decode`
with the configured secret and algorithm, returning the full payload on
success and `None` on any `JWTError` (bad signature, expired, malformed
registered claim).  No claim of the payload other than the registered
ones is inspected; in particular the `"type"` tag is not. -/
def decode_access_token (token : JwtToken) (now : Nat) : Option ClaimsD :=
  if token.signedWith == JWT_SECRET && claimsValid token.payload now then
    some token.payload
  else
    none

/-- The outcome of calling `UUID(x)` on a claim value.  On the string
form of a UUID it returns the UUID; on any other string it raises
`ValueError`, which the callers of the model catch; on a non-string
value (a numeric JSON claim) `UUID(123)` raises
`AttributeError: 'int' object has no attribute 'replace'`, which
`except ValueError` in `app/api/deps.py` does **not** catch. -/
inductive UUIDParse where
  | ok (u : Nat)
  | valueError
  | attrError
deriving DecidableEq

/-- Model of `UUID(x)` applied to a claim value, per `UUIDParse`. -/
def parseUUID : JVal → UUIDParse
  | JVal.uuidStr u => UUIDParse.ok u
  | JVal.strVal _ => UUIDParse.valueError
  | JVal.numVal _ => UUIDParse.attrError

/-- Model of `TokenData` from `app/schemas/auth.py`: the parsed claims. -/
structure TokenData where
  user_id : Nat
  tenant_id : Nat
deriving DecidableEq

/-- The result of the token-verification pipeline: valid claims, an
Invalid outcome (the caught failures, surfaced as 401), or an uncaught
exception escaping the pipeline (surfaced as a 500; `app/main.py`
installs no exception handler). -/
inductive VerifyResult where
  | valid (td : TokenData)
  | invalid
  | crash
deriving DecidableEq

/-- The token-verification pipeline: `decode_access_token` followed by
the claim extraction and parsing of `get_current_user`
(`app/api/deps.py`, the steps before the database lookup): read `sub`
and `tenant_id` from the payload, fail if either is missing, then run
`UUID(user_id_str)` and `UUID(tenant_id_str)` in that order inside
`try ... except ValueError`: a `ValueError` is caught (Invalid), while
an `AttributeError` from a non-string claim value escapes uncaught
(crash).  This is the code's realization of the spec's Token Codec
`verify`. -/
def verify_token (token : JwtToken) (now : Nat) : VerifyResult :=
  match decode_access_token token now with
  | none => VerifyResult.invalid
  | some payload =>
    match dictGet payload "sub", dictGet payload "tenant_id" with
    | some subV, some tenV =>
      match parseUUID subV with
      | UUIDParse.attrError => VerifyResult.crash
      | UUIDParse.valueError => VerifyResult.invalid
      | UUIDParse.ok uid =>
        match parseUUID tenV with
        | UUIDParse.attrError => VerifyResult.crash
        | UUIDParse.valueError => VerifyResult.invalid
        | UUIDParse.ok tid => VerifyResult.valid { user_id := uid, tenant_id := tid }
    | _, _ => VerifyResult.invalid

/-- Model of `User` from `app/models/tenant.py` (the columns the core reads). -/
structure User where
  id : Nat
  tenant_id : Nat
  email : String
  hashed_password : String
  is_active : Bool
  is_superuser : Bool
deriving DecidableEq

/-- Model of `DealStage` from `app/models/crm.py`. -/
inductive DealStage where
  | NEW
  | NEGOTIATION
  | CLOSED_WON
  | CLOSED_LOST
deriving DecidableEq

/-- Model of `PropertyType` from `app/models/real_estate.py`. -/
inductive PropertyType where
  | HOUSE
  | APARTMENT
  | COMMERCIAL
  | LAND
deriving DecidableEq

/-- Model of `PropertyStatus` from `app/models/real_estate.py`. -/
inductive PropertyStatus where
  | AVAILABLE
  | SOLD
  | RENTED
  | PENDING
deriving DecidableEq

/-- Model of `Contact` from `app/models/crm.py`.  `Numeric`/`Decimal` amounts and
prices elsewhere are modelled as `Nat` (they are only compared);
`updated_at` is not modelled (no claim reads it). -/
structure Contact where
  id : Nat
  tenant_id : Nat
  first_name : String
  last_name : String
  email : Option String
  phone : Option String
  description : Option String
  created_at : Nat
deriving DecidableEq

/-- Model of `Deal` from `app/models/crm.py`. -/
structure Deal where
  id : Nat
  tenant_id : Nat
  contact_id : Nat
  title : String
  amount : Option Nat
  stage : DealStage
  description : Option String
  created_at : Nat
deriving DecidableEq

/-- Model of `Property` from `app/models/real_estate.py`. -/
structure Property where
  id : Nat
  tenant_id : Nat
  title : String
  address : String
  price : Option Nat
  property_type : PropertyType
  status : PropertyStatus
  description : Option String
  bedrooms : Option String
  bathrooms : Option String
  area_sqm : Option Nat
  created_at : Nat
deriving DecidableEq

/-- Model of `Viewing` from `app/models/real_estate.py`. -/
structure Viewing where
  id : Nat
  tenant_id : Nat
  property_id : Nat
  contact_id : Nat
  viewing_date : Nat
  notes : Option String
  status : String
  created_at : Nat
deriving DecidableEq

/-- The relational store: one table per model. -/
structure DB where
  users : List User
  contacts : List Contact
  deals : List Deal
  properties : List Property
  viewings : List Viewing
deriving DecidableEq

/-- Model of `fastapi.HTTPException`: status code, detail message, extra headers. -/
structure HTTPException where
  status_code : Nat
  detail : String
  headers : List (String × String)
deriving DecidableEq

/-- The `credentials_exception` built in `get_current_user`. -/
def credentials_exception : HTTPException :=
  { status_code := 401,
    detail := "Could not validate credentials",
    headers := [("WWW-Authenticate", "Bearer")] }

/-- The 403 raised by `get_current_user` for a disabled account. -/
def inactive_user_exception : HTTPException :=
  { status_code := 403, detail := "Inactive user", headers := [] }

/-- The outcome of a request handler: a value, a raised `HTTPException`
translated to its status code, or an uncaught exception surfacing as a
500 Internal Server Error (`app/main.py` installs no exception
handler). -/
inductive Resp (α : Type) where
  | ok (a : α)
  | error (e : HTTPException)
  | crash
deriving DecidableEq

/-- Model of `get_current_user` from `app/api/deps.py`: decode the bearer
token, extract `sub` and `tenant_id` (401 if missing), run
`UUID(user_id_str)` then `UUID(tenant_id_str)` inside
`try ... except ValueError` — a `ValueError` gives the 401
`credentials_exception`, but an `AttributeError` from a non-string claim
value is uncaught and crashes the request — then fetch the user by id
(`select(User).where(User.id == ...)`, `scalar_one_or_none` on the
primary key), 401 if absent, 403 if `is_active` is false, 401 if the
stored `tenant_id` differs from the token's claim, else the user. -/
def get_current_user (db : DB) (token : JwtToken) (now : Nat) :
    Resp User :=
  match decode_access_token token now with
  | none => Resp.error credentials_exception
  | some payload =>
    match dictGet payload "sub", dictGet payload "tenant_id" with
    | some subV, some tenV =>
      match parseUUID subV with
      | UUIDParse.attrError => Resp.crash
      | UUIDParse.valueError => Resp.error credentials_exception
      | UUIDParse.ok uid =>
        match parseUUID tenV with
        | UUIDParse.attrError => Resp.crash
        | UUIDParse.valueError => Resp.error credentials_exception
        | UUIDParse.ok tid =>
          match db.users.find? (fun u => u.id == uid) with
          | none => Resp.error credentials_exception
          | some user =>
            if !user.is_active then
              Resp.error inactive_user_exception
            else if user.tenant_id != tid then
              Resp.error credentials_exception
            else
              Resp.ok user
    | _, _ => Resp.error credentials_exception

/-- The password hasher (`passlib` bcrypt) is an external primitive per
the spec; it is modelled as an injective tagging of the plaintext, which
gives `verify(p, hash(p)) = true` and mismatch otherwise.  No claim
depends on hash internals, only on the boolean outcome of `verify`. -/
def hash_password (password : String) : String :=
  String.append "bcrypt:" password

/-- Model of `verify_password` from `app/core/security.py`, over the model hash. -/
def verify_password (plain_password hashed_password : String) : Bool :=
  hashed_password == hash_password plain_password

/-- Model of `Token` from `app/schemas/auth.py`. -/
structure Token where
  access_token : JwtToken
  token_type : String
deriving DecidableEq

/-- The 401 raised by `login` on bad credentials. -/
def incorrect_credentials_exception : HTTPException :=
  { status_code := 401,
    detail := "Incorrect email or password",
    headers := [("WWW-Authenticate", "Bearer")] }

/-- The 403 raised by `login` for an inactive account. -/
def inactive_account_exception : HTTPException :=
  { status_code := 403, detail := "Inactive user account", headers := [] }

/-- Model of SQLAlchemy's `scalar_one_or_none()` on a filtered query:
`None` when no row matches, the row when exactly one does, and a raised
`MultipleResultsFound` (here `Except.error ()`) when several do. -/
def scalar_one_or_none {α : Type} (p : α → Bool) (l : List α) :
    Except Unit (Option α) :=
  match l.filter p with
  | [] => Except.ok none
  | [x] => Except.ok (some x)
  | _ => Except.error ()

/-- Model of `login` from `app/api/v1/endpoints/auth.py`: look the user
up by email with `scalar_one_or_none` — unlike the primary-key queries,
this predicate is only unique per tenant (`uq_user_tenant_email`), so
the same email under two tenants raises `MultipleResultsFound`, which no
handler catches (crash) — then fail 401 uniformly when no user matches
or the password does not verify, fail 403 when the account is inactive,
else issue a token with the user's id and tenant and the default
expiry. -/
def login (db : DB) (username password : String) (now : Nat) :
    Resp Token :=
  match scalar_one_or_none (fun u => u.email == username) db.users with
  | Except.error _ => Resp.crash
  | Except.ok none => Resp.error incorrect_credentials_exception
  | Except.ok (some user) =>
    if !verify_password password user.hashed_password then
      Resp.error incorrect_credentials_exception
    else if !user.is_active then
      Resp.error inactive_account_exception
    else
      Resp.ok { access_token := create_access_token user.id user.tenant_id now none [],
                token_type := "bearer" }

/-- Insert into a list sorted by the boolean comparator `le`
(kept before the first element it compares `le` to). -/
def insertBy {α : Type} (le : α → α → Bool) (c : α) : List α → List α
  | [] => [c]
  | x :: xs => if le c x then c :: x :: xs else x :: insertBy le c xs

/-- Model of `ORDER BY` as a sort with boolean comparator `le`. -/
def sortBy {α : Type} (le : α → α → Bool) : List α → List α
  | [] => []
  | x :: xs => insertBy le x (sortBy le xs)

/-- The comparator of `ORDER BY created_at DESC` (later rows first). -/
def createdDesc {α : Type} (created : α → Nat) (a b : α) : Bool :=
  decide (created b ≤ created a)

/-- Does `hay` start with `pat` (character lists)? -/
def startsWithL (pat hay : List Char) : Bool :=
  match pat, hay with
  | [], _ => true
  | _ :: _, [] => false
  | p :: ps, c :: cs => p == c && startsWithL ps cs

/-- Does `hay` contain `pat` as a contiguous sublist? -/
def containsL (pat : List Char) : List Char → Bool
  | [] => pat.isEmpty
  | c :: cs => startsWithL pat (c :: cs) || containsL pat cs

/-- Model of `column ILIKE '%search%'`: case-insensitive substring match.
(SQL wildcard characters inside `search` are outside the model.) -/
def ilike_contains (hay pat : String) : Bool :=
  containsL pat.toLower.data hay.toLower.data

/-- Model of `ILIKE` on a nullable column: SQL `NULL ILIKE p` is not a match. -/
def ilike_contains_opt (hay : Option String) (pat : String) : Bool :=
  match hay with
  | some h => ilike_contains h pat
  | none => false

/-- The `or_` search predicate of `list_contacts`: first name, last name
or email matches `%search%` case-insensitively. -/
def contact_matches_search (search : String) (c : Contact) : Bool :=
  ilike_contains c.first_name search ||
  ilike_contains c.last_name search ||
  ilike_contains_opt c.email search

/-- SQL `ORDER BY created_at DESC OFFSET skip LIMIT limit` applied to a
filtered row set (SQL orders before paginating, whatever the order of the
query-builder calls). -/
def paginate {α : Type} (created : α → Nat) (skip limit : Nat)
    (rows : List α) : List α :=
  ((sortBy (createdDesc created) rows).drop skip).take limit

/-- The 404 raised by the contact endpoints. -/
def contact_not_found : HTTPException :=
  { status_code := 404, detail := "Contact not found", headers := [] }

/-- Model of `create_contact`'s payload schema `ContactCreate`
(`app/schemas/crm.py`); it has no tenant field. -/
structure ContactCreate where
  first_name : String
  last_name : String
  email : Option String
  phone : Option String
  description : Option String
deriving DecidableEq

/-- Model of `ContactUpdate` (`app/schemas/crm.py`): every field optional; `none`
means the field was absent from the request (`exclude_unset`).  A field
explicitly sent as JSON `null` is elided into `none` (no claim exercises
explicit nulls). -/
structure ContactUpdate where
  first_name : Option String
  last_name : Option String
  email : Option String
  phone : Option String
  description : Option String
deriving DecidableEq

/-- The `setattr` loop of `update_contact` over the provided fields. -/
def applyContactUpdate (c : Contact) (p : ContactUpdate) : Contact :=
  { c with
    first_name := p.first_name.getD c.first_name,
    last_name := p.last_name.getD c.last_name,
    email := match p.email with | some e => some e | none => c.email,
    phone := match p.phone with | some e => some e | none => c.phone,
    description := match p.description with | some e => some e | none => c.description }

/-- Model of `create_contact` (`app/api/v1/endpoints/contacts.py`): build the row
from the payload plus `tenant_id = current_user.tenant_id`, insert,
commit, return it.  `newId` and `now` stand for the database defaults
`uuid4()` and `utcnow()`. -/
def create_contact (db : DB) (current_user : User) (contact_in : ContactCreate)
    (newId now : Nat) : DB × Contact :=
  let contact : Contact :=
    { id := newId,
      tenant_id := current_user.tenant_id,
      first_name := contact_in.first_name,
      last_name := contact_in.last_name,
      email := contact_in.email,
      phone := contact_in.phone,
      description := contact_in.description,
      created_at := now }
  ({ db with contacts := db.contacts ++ [contact] }, contact)

/-- Model of `list_contacts`: rows with `tenant_id = current_user.tenant_id`,
optionally restricted by the search predicate (Python's `if search:` is
false for `None` and for the empty string), ordered by `created_at`
descending, then `OFFSET skip LIMIT limit`. -/
def list_contacts (db : DB) (current_user : User) (search : Option String)
    (skip limit : Nat) : List Contact :=
  let base := db.contacts.filter (fun c => c.tenant_id == current_user.tenant_id)
  let filtered :=
    match search with
    | some s => if s.isEmpty then base else base.filter (contact_matches_search s)
    | none => base
  paginate Contact.created_at skip limit filtered

/-- Model of `get_contact`: fetch filtered by `(id, tenant_id)`; 404 when absent. -/
def get_contact (db : DB) (current_user : User) (contact_id : Nat) :
    Except HTTPException Contact :=
  match db.contacts.find? (fun c => c.id == contact_id && c.tenant_id == current_user.tenant_id) with
  | some c => Except.ok c
  | none => Except.error contact_not_found

/-- Model of `update_contact`: fetch filtered by `(id, tenant_id)`; 404 when
absent (store unchanged); else apply the provided fields and commit. -/
def update_contact (db : DB) (current_user : User) (contact_id : Nat)
    (contact_in : ContactUpdate) : DB × Except HTTPException Contact :=
  match db.contacts.find? (fun c => c.id == contact_id && c.tenant_id == current_user.tenant_id) with
  | none => (db, Except.error contact_not_found)
  | some c =>
    let c' := applyContactUpdate c contact_in
    ({ db with contacts := db.contacts.map (fun x => if x.id == c.id then c' else x) },
     Except.ok c')

/-- Model of `delete_contact`: fetch filtered by `(id, tenant_id)`; 404 when
absent (store unchanged); else delete the row — the `ondelete="CASCADE"`
foreign keys also remove its deals and viewings. -/
def delete_contact (db : DB) (current_user : User) (contact_id : Nat) :
    DB × Except HTTPException Unit :=
  match db.contacts.find? (fun c => c.id == contact_id && c.tenant_id == current_user.tenant_id) with
  | none => (db, Except.error contact_not_found)
  | some c =>
    ({ db with
       contacts := db.contacts.filter (fun x => !(x.id == c.id)),
       deals := db.deals.filter (fun d => !(d.contact_id == c.id)),
       viewings := db.viewings.filter (fun v => !(v.contact_id == c.id)) },
     Except.ok ())

/-- The 404 raised by the deal endpoints for a missing deal. -/
def deal_not_found : HTTPException :=
  { status_code := 404, detail := "Deal not found", headers := [] }

/-- The 404 raised by `create_deal`/`update_deal` when the referenced
contact is missing or belongs to another tenant. -/
def deal_contact_not_found : HTTPException :=
  { status_code := 404,
    detail := "Contact not found or does not belong to your tenant",
    headers := [] }

/-- Model of `DealCreate` (`app/schemas/crm.py`). -/
structure DealCreate where
  title : String
  amount : Option Nat
  stage : DealStage
  description : Option String
  contact_id : Nat
deriving DecidableEq

/-- Model of `DealUpdate` (`app/schemas/crm.py`): all fields optional, `none`
meaning absent from the request; an explicit JSON `null` is elided. -/
structure DealUpdate where
  title : Option String
  amount : Option Nat
  stage : Option DealStage
  description : Option String
  contact_id : Option Nat
deriving DecidableEq

/-- The `setattr` loop of `update_deal` over the provided fields. -/
def applyDealUpdate (d : Deal) (p : DealUpdate) : Deal :=
  { d with
    title := p.title.getD d.title,
    amount := match p.amount with | some a => some a | none => d.amount,
    stage := p.stage.getD d.stage,
    description := match p.description with | some s => some s | none => d.description,
    contact_id := p.contact_id.getD d.contact_id }

/-- Model of `create_deal` (`app/api/v1/endpoints/deals.py`): first fetch the
referenced contact filtered by `(contact_id, tenant_id)`; 404 with the
cross-tenant detail when absent, before anything is inserted (store
unchanged); else insert the deal stamped with the user's tenant. -/
def create_deal (db : DB) (current_user : User) (deal_in : DealCreate)
    (newId now : Nat) : DB × Except HTTPException Deal :=
  match db.contacts.find? (fun c => c.id == deal_in.contact_id && c.tenant_id == current_user.tenant_id) with
  | none => (db, Except.error deal_contact_not_found)
  | some _ =>
    let deal : Deal :=
      { id := newId,
        tenant_id := current_user.tenant_id,
        contact_id := deal_in.contact_id,
        title := deal_in.title,
        amount := deal_in.amount,
        stage := deal_in.stage,
        description := deal_in.description,
        created_at := now }
    ({ db with deals := db.deals ++ [deal] }, Except.ok deal)

/-- Model of `list_deals`: tenant-filtered, optional `stage` and `contact_id`
filters (both parameters are truthy whenever present), ordered by
`created_at` descending, then `OFFSET skip LIMIT limit`. -/
def list_deals (db : DB) (current_user : User) (stage : Option DealStage)
    (contact_id : Option Nat) (skip limit : Nat) : List Deal :=
  let base := db.deals.filter (fun d => d.tenant_id == current_user.tenant_id)
  let base :=
    match stage with
    | some st => base.filter (fun d => d.stage == st)
    | none => base
  let base :=
    match contact_id with
    | some cid => base.filter (fun d => d.contact_id == cid)
    | none => base
  paginate Deal.created_at skip limit base

/-- Model of `get_deal`: fetch filtered by `(id, tenant_id)`; 404 when absent.
(The `selectinload` of the contact only affects serialization.) -/
def get_deal (db : DB) (current_user : User) (deal_id : Nat) :
    Except HTTPException Deal :=
  match db.deals.find? (fun d => d.id == deal_id && d.tenant_id == current_user.tenant_id) with
  | some d => Except.ok d
  | none => Except.error deal_not_found

/-- Model of `update_deal`: fetch the deal filtered by `(id, tenant_id)`, 404 when
absent; when the patch provides a non-null `contact_id`, re-fetch that
contact filtered by `(contact_id, tenant_id)` and fail 404 with the
cross-tenant detail before applying anything (store unchanged); else
apply the provided fields and commit. -/
def update_deal (db : DB) (current_user : User) (deal_id : Nat)
    (deal_in : DealUpdate) : DB × Except HTTPException Deal :=
  match db.deals.find? (fun d => d.id == deal_id && d.tenant_id == current_user.tenant_id) with
  | none => (db, Except.error deal_not_found)
  | some d =>
    let contactOk : Bool :=
      match deal_in.contact_id with
      | some cid =>
        (db.contacts.find? (fun c => c.id == cid && c.tenant_id == current_user.tenant_id)).isSome
      | none => true
    if !contactOk then
      (db, Except.error deal_contact_not_found)
    else
      let d' := applyDealUpdate d deal_in
      ({ db with deals := db.deals.map (fun x => if x.id == d.id then d' else x) },
       Except.ok d')

/-- Model of `delete_deal`: fetch filtered by `(id, tenant_id)`; 404 when absent
(store unchanged); else delete the row. -/
def delete_deal (db : DB) (current_user : User) (deal_id : Nat) :
    DB × Except HTTPException Unit :=
  match db.deals.find? (fun d => d.id == deal_id && d.tenant_id == current_user.tenant_id) with
  | none => (db, Except.error deal_not_found)
  | some d =>
    ({ db with deals := db.deals.filter (fun x => !(x.id == d.id)) }, Except.ok ())

/-- The 404 raised by the property endpoints. -/
def property_not_found : HTTPException :=
  { status_code := 404, detail := "Property not found", headers := [] }

/-- Model of `PropertyCreate` (`app/schemas/real_estate.py`); no tenant field. -/
structure PropertyCreate where
  title : String
  address : String
  price : Option Nat
  property_type : PropertyType
  status : PropertyStatus
  description : Option String
  bedrooms : Option String
  bathrooms : Option String
  area_sqm : Option Nat
deriving DecidableEq

/-- Model of `PropertyUpdate` (`app/schemas/real_estate.py`): all optional. -/
structure PropertyUpdate where
  title : Option String
  address : Option String
  price : Option Nat
  property_type : Option PropertyType
  status : Option PropertyStatus
  description : Option String
  bedrooms : Option String
  bathrooms : Option String
  area_sqm : Option Nat
deriving DecidableEq

/-- The `setattr` loop of `update_property`. -/
def applyPropertyUpdate (p : Property) (u : PropertyUpdate) : Property :=
  { p with
    title := u.title.getD p.title,
    address := u.address.getD p.address,
    price := match u.price with | some v => some v | none => p.price,
    property_type := u.property_type.getD p.property_type,
    status := u.status.getD p.status,
    description := match u.description with | some v => some v | none => p.description,
    bedrooms := match u.bedrooms with | some v => some v | none => p.bedrooms,
    bathrooms := match u.bathrooms with | some v => some v | none => p.bathrooms,
    area_sqm := match u.area_sqm with | some v => some v | none => p.area_sqm }

/-- Model of `create_property` (`app/api/v1/endpoints/properties.py`): build the
row from the payload plus `tenant_id = current_user.tenant_id`. -/
def create_property (db : DB) (current_user : User) (property_in : PropertyCreate)
    (newId now : Nat) : DB × Property :=
  let property_obj : Property :=
    { id := newId,
      tenant_id := current_user.tenant_id,
      title := property_in.title,
      address := property_in.address,
      price := property_in.price,
      property_type := property_in.property_type,
      status := property_in.status,
      description := property_in.description,
      bedrooms := property_in.bedrooms,
      bathrooms := property_in.bathrooms,
      area_sqm := property_in.area_sqm,
      created_at := now }
  ({ db with properties := db.properties ++ [property_obj] }, property_obj)

/-- Model of `list_properties`: tenant-filtered, optional type/status filters
(truthy whenever present) and price-range filters (`is not None` tests;
a row with SQL `NULL` price never satisfies a price comparison), ordered
by `created_at` descending, then `OFFSET skip LIMIT limit`. -/
def list_properties (db : DB) (current_user : User)
    (property_type : Option PropertyType) (status_filter : Option PropertyStatus)
    (min_price max_price : Option Nat) (skip limit : Nat) : List Property :=
  let base := db.properties.filter (fun p => p.tenant_id == current_user.tenant_id)
  let base :=
    match property_type with
    | some t => base.filter (fun p => p.property_type == t)
    | none => base
  let base :=
    match status_filter with
    | some s => base.filter (fun p => p.status == s)
    | none => base
  let base :=
    match min_price with
    | some m => base.filter (fun p => match p.price with
        | some pr => decide (m ≤ pr)
        | none => false)
    | none => base
  let base :=
    match max_price with
    | some m => base.filter (fun p => match p.price with
        | some pr => decide (pr ≤ m)
        | none => false)
    | none => base
  paginate Property.created_at skip limit base

/-- Model of `get_property`: fetch filtered by `(id, tenant_id)`; 404 when absent. -/
def get_property (db : DB) (current_user : User) (property_id : Nat) :
    Except HTTPException Property :=
  match db.properties.find? (fun p => p.id == property_id && p.tenant_id == current_user.tenant_id) with
  | some p => Except.ok p
  | none => Except.error property_not_found

/-- Model of `update_property`: fetch filtered by `(id, tenant_id)`; 404 when
absent (store unchanged); else apply the provided fields and commit. -/
def update_property (db : DB) (current_user : User) (property_id : Nat)
    (property_in : PropertyUpdate) : DB × Except HTTPException Property :=
  match db.properties.find? (fun p => p.id == property_id && p.tenant_id == current_user.tenant_id) with
  | none => (db, Except.error property_not_found)
  | some p =>
    let p' := applyPropertyUpdate p property_in
    ({ db with properties := db.properties.map (fun x => if x.id == p.id then p' else x) },
     Except.ok p')

/-- Model of `delete_property`: fetch filtered by `(id, tenant_id)`; 404 when
absent (store unchanged); else delete the row — the cascade also removes
its viewings. -/
def delete_property (db : DB) (current_user : User) (property_id : Nat) :
    DB × Except HTTPException Unit :=
  match db.properties.find? (fun p => p.id == property_id && p.tenant_id == current_user.tenant_id) with
  | none => (db, Except.error property_not_found)
  | some p =>
    ({ db with
       properties := db.properties.filter (fun x => !(x.id == p.id)),
       viewings := db.viewings.filter (fun v => !(v.property_id == p.id)) },
     Except.ok ())

/-- Model of `ViewingCreate` (`app/schemas/real_estate.py`).  The `property_id`
of the schema is shadowed by the path parameter at the endpoint. -/
structure ViewingCreate where
  viewing_date : Nat
  notes : Option String
  status : String
  contact_id : Nat
deriving DecidableEq

/-- Model of `create_viewing` (`app/api/v1/endpoints/properties.py`): verify the
property under the user's tenant (404 otherwise), verify the referenced
contact under the user's tenant (404 `"Contact not found"` otherwise),
then insert the viewing stamped with the user's tenant. -/
def create_viewing (db : DB) (current_user : User) (property_id : Nat)
    (viewing_in : ViewingCreate) (newId now : Nat) :
    DB × Except HTTPException Viewing :=
  match db.properties.find? (fun p => p.id == property_id && p.tenant_id == current_user.tenant_id) with
  | none => (db, Except.error property_not_found)
  | some _ =>
    match db.contacts.find? (fun c => c.id == viewing_in.contact_id && c.tenant_id == current_user.tenant_id) with
    | none => (db, Except.error contact_not_found)
    | some _ =>
      let viewing : Viewing :=
        { id := newId,
          tenant_id := current_user.tenant_id,
          property_id := property_id,
          contact_id := viewing_in.contact_id,
          viewing_date := viewing_in.viewing_date,
          notes := viewing_in.notes,
          status := viewing_in.status,
          created_at := now }
      ({ db with viewings := db.viewings ++ [viewing] }, Except.ok viewing)

/-- The comparator of `ORDER BY viewing_date` (ascending). -/
def viewingDateAsc (a b : Viewing) : Bool :=
  decide (a.viewing_date ≤ b.viewing_date)

/-- Model of `list_viewings` (`app/api/v1/endpoints/properties.py`): verify the
property under the user's tenant (404 otherwise), then return the
viewings with that `property_id` and the user's `tenant_id`, ordered by
`viewing_date` ascending (`order_by(Viewing.viewing_date)` — not by
creation time, and with no pagination). -/
def list_viewings (db : DB) (current_user : User) (property_id : Nat) :
    Except HTTPException (List Viewing) :=
  match db.properties.find? (fun p => p.id == property_id && p.tenant_id == current_user.tenant_id) with
  | none => Except.error property_not_found
  | some _ =>
    Except.ok (sortBy viewingDateAsc
      (db.viewings.filter (fun v => v.property_id == property_id && v.tenant_id == current_user.tenant_id)))

/-! ### Helper lemmas -/

theorem mem_insertBy {α : Type} (le : α → α → Bool) (c x : α) (l : List α) :
    x ∈ insertBy le c l ↔ x = c ∨ x ∈ l := by
  induction l with
  | nil => simp [insertBy]
  | cons y ys ih =>
    by_cases h : le c y = true
    · simp [insertBy, h]
    · simp only [insertBy, if_neg h, List.mem_cons, ih]
      tauto

theorem mem_sortBy {α : Type} (le : α → α → Bool) (x : α) (l : List α) :
    x ∈ sortBy le l ↔ x ∈ l := by
  induction l with
  | nil => simp [sortBy]
  | cons y ys ih => simp [sortBy, mem_insertBy, ih]

theorem pairwise_insertBy {α : Type} (le : α → α → Bool)
    (htot : ∀ a b : α, le a b = true ∨ le b a = true)
    (htrans : ∀ a b c : α, le a b = true → le b c = true → le a c = true)
    (c : α) (l : List α)
    (hl : l.Pairwise (fun a b => le a b = true)) :
    (insertBy le c l).Pairwise (fun a b => le a b = true) := by
  induction l with
  | nil => simp [insertBy]
  | cons y ys ih =>
    rcases List.pairwise_cons.mp hl with ⟨hy, hys⟩
    by_cases h : le c y = true
    · rw [insertBy, if_pos h]
      refine List.pairwise_cons.mpr ⟨?_, hl⟩
      intro z hz
      rcases List.mem_cons.mp hz with rfl | hz'
      · exact h
      · exact htrans c y z h (hy z hz')
    · rw [insertBy, if_neg h]
      refine List.pairwise_cons.mpr ⟨?_, ih hys⟩
      intro z hz
      rcases (mem_insertBy le c z ys).mp hz with rfl | hz'
      · cases htot y z with
        | inl hyz => exact hyz
        | inr hzy => exact absurd hzy h
      · exact hy z hz'

theorem pairwise_sortBy {α : Type} (le : α → α → Bool)
    (htot : ∀ a b : α, le a b = true ∨ le b a = true)
    (htrans : ∀ a b c : α, le a b = true → le b c = true → le a c = true)
    (l : List α) :
    (sortBy le l).Pairwise (fun a b => le a b = true) := by
  induction l with
  | nil => simp [sortBy]
  | cons y ys ih => exact pairwise_insertBy le htot htrans y (sortBy le ys) ih

theorem mem_paginate {α : Type} (created : α → Nat) (skip limit : Nat)
    (rows : List α) (x : α) :
    x ∈ paginate created skip limit rows → x ∈ rows := by
  intro hx
  have h1 : x ∈ (sortBy (createdDesc created) rows).drop skip :=
    List.take_subset _ _ hx
  have h2 : x ∈ sortBy (createdDesc created) rows :=
    List.drop_subset _ _ h1
  exact (mem_sortBy _ x rows).mp h2

theorem pairwise_paginate {α : Type} (created : α → Nat) (skip limit : Nat)
    (rows : List α) :
    (paginate created skip limit rows).Pairwise
      (fun a b => created b ≤ created a) := by
  have hsorted : (sortBy (createdDesc created) rows).Pairwise
      (fun a b => createdDesc created a b = true) := by
    refine pairwise_sortBy _ ?_ ?_ rows
    · intro a b
      simp only [createdDesc, decide_eq_true_eq]
      omega
    · intro a b c
      simp only [createdDesc, decide_eq_true_eq]
      omega
  have hsub : List.Sublist (paginate created skip limit rows) (sortBy (createdDesc created) rows) :=
    (List.take_sublist _ _).trans (List.drop_sublist _ _)
  have := hsorted.sublist hsub
  refine this.imp ?_
  intro a b hab
  simpa [createdDesc] using hab

theorem find_scoped_none {α : Type} (idOf tenOf : α → Nat) (l : List α)
    (e : α) (t : Nat)
    (huniq : ∀ x ∈ l, idOf x = idOf e → x = e) (ht : tenOf e ≠ t) :
    l.find? (fun x => idOf x == idOf e && tenOf x == t) = none := by
  rw [List.find?_eq_none]
  intro x hx
  by_cases hid : idOf x = idOf e
  · have hxe := huniq x hx hid
    subst hxe
    simp only [Bool.and_eq_true, beq_iff_eq, not_and]
    intro _
    exact ht
  · simp only [Bool.and_eq_true, beq_iff_eq, not_and]
    intro h
    exact absurd h hid

theorem mem_filter_tenant {α : Type} (tenOf : α → Nat) (l : List α)
    (t : Nat) (x : α)
    (hx : x ∈ l.filter (fun c => tenOf c == t)) : tenOf x = t := by
  have := List.of_mem_filter hx
  exact beq_iff_eq.mp this

theorem mem_list_contacts_tenant (db : DB) (u : User) (search : Option String)
    (skip limit : Nat) (x : Contact)
    (hx : x ∈ list_contacts db u search skip limit) :
    x.tenant_id = u.tenant_id := by
  cases search with
  | none =>
    simp only [list_contacts] at hx
    exact mem_filter_tenant Contact.tenant_id _ _ _ (mem_paginate _ _ _ _ _ hx)
  | some s =>
    by_cases hs : s.isEmpty <;>
      simp only [list_contacts, hs, if_true, if_false, Bool.false_eq_true] at hx <;>
      have hx2 := mem_paginate _ _ _ _ _ hx <;>
      first
        | exact mem_filter_tenant Contact.tenant_id _ _ _ hx2
        | exact mem_filter_tenant Contact.tenant_id _ _ _ (List.mem_of_mem_filter hx2)

theorem mem_list_deals_tenant (db : DB) (u : User) (stage : Option DealStage)
    (contact_id : Option Nat) (skip limit : Nat) (x : Deal)
    (hx : x ∈ list_deals db u stage contact_id skip limit) :
    x.tenant_id = u.tenant_id := by
  cases stage <;> cases contact_id <;>
    simp only [list_deals] at hx <;>
    have hx2 := mem_paginate _ _ _ _ _ hx <;>
    first
      | exact mem_filter_tenant Deal.tenant_id _ _ _ hx2
      | exact mem_filter_tenant Deal.tenant_id _ _ _ (List.mem_of_mem_filter hx2)
      | exact mem_filter_tenant Deal.tenant_id _ _ _
          (List.mem_of_mem_filter (List.mem_of_mem_filter hx2))

theorem mem_list_properties_tenant (db : DB) (u : User)
    (property_type : Option PropertyType) (status_filter : Option PropertyStatus)
    (min_price max_price : Option Nat) (skip limit : Nat) (x : Property)
    (hx : x ∈ list_properties db u property_type status_filter min_price max_price skip limit) :
    x.tenant_id = u.tenant_id := by
  cases property_type <;> cases status_filter <;> cases min_price <;> cases max_price <;>
    simp only [list_properties] at hx <;>
    have hx2 := mem_paginate _ _ _ _ _ hx <;>
    first
      | exact mem_filter_tenant Property.tenant_id _ _ _ hx2
      | exact mem_filter_tenant Property.tenant_id _ _ _ (List.mem_of_mem_filter hx2)
      | exact mem_filter_tenant Property.tenant_id _ _ _
          (List.mem_of_mem_filter (List.mem_of_mem_filter hx2))
      | exact mem_filter_tenant Property.tenant_id _ _ _
          (List.mem_of_mem_filter (List.mem_of_mem_filter (List.mem_of_mem_filter hx2)))
      | exact mem_filter_tenant Property.tenant_id _ _ _
          (List.mem_of_mem_filter (List.mem_of_mem_filter (List.mem_of_mem_filter
            (List.mem_of_mem_filter hx2))))

theorem mem_list_viewings_tenant (db : DB) (u : User) (property_id : Nat)
    (l : List Viewing) (x : Viewing)
    (hok : list_viewings db u property_id = Except.ok l) (hx : x ∈ l) :
    x.tenant_id = u.tenant_id ∧ x.property_id = property_id := by
  simp only [list_viewings] at hok
  cases hfind : db.properties.find?
      (fun p => p.id == property_id && p.tenant_id == u.tenant_id) with
  | none => rw [hfind] at hok; exact absurd hok (by simp)
  | some pr =>
    rw [hfind] at hok
    have hl : l = sortBy viewingDateAsc
        (db.viewings.filter (fun v => v.property_id == property_id && v.tenant_id == u.tenant_id)) := by
      cases hok
      rfl
    subst hl
    have hx2 := (mem_sortBy _ _ _).mp hx
    have := List.of_mem_filter hx2
    simp only [Bool.and_eq_true, beq_iff_eq] at this
    exact ⟨this.2, this.1⟩

/-! ### Claim theorems -/

/-- Claim C1.  Tenant isolation: for every entity `e` (Contact, Deal, Property,
Viewing) whose `tenant_id` differs from the authenticated user's, the
`get`, `update` and `delete` endpoints on `e.id` return the 404
NotFound of the entity (leaving the store unchanged), and `e` never
appears in the output of the corresponding list endpoint — each
operation's query filters by both the entity id and the user's
`tenant_id`.  Primary-key uniqueness of ids within each table is the
hypothesis `h*u`. -/
theorem tenant_isolation (db : DB) (u : User)
    (c : Contact) (hcu : ∀ x ∈ db.contacts, x.id = c.id → x = c)
    (hct : c.tenant_id ≠ u.tenant_id)
    (d : Deal) (hdu : ∀ x ∈ db.deals, x.id = d.id → x = d)
    (hdt : d.tenant_id ≠ u.tenant_id)
    (p : Property) (hpu : ∀ x ∈ db.properties, x.id = p.id → x = p)
    (hpt : p.tenant_id ≠ u.tenant_id)
    (v : Viewing) (hvt : v.tenant_id ≠ u.tenant_id) :
    get_contact db u c.id = Except.error contact_not_found
    ∧ (∀ patch, update_contact db u c.id patch = (db, Except.error contact_not_found))
    ∧ delete_contact db u c.id = (db, Except.error contact_not_found)
    ∧ (∀ search skip limit, c ∉ list_contacts db u search skip limit)
    ∧ get_deal db u d.id = Except.error deal_not_found
    ∧ (∀ patch, update_deal db u d.id patch = (db, Except.error deal_not_found))
    ∧ delete_deal db u d.id = (db, Except.error deal_not_found)
    ∧ (∀ stage contact_id skip limit, d ∉ list_deals db u stage contact_id skip limit)
    ∧ get_property db u p.id = Except.error property_not_found
    ∧ (∀ patch, update_property db u p.id patch = (db, Except.error property_not_found))
    ∧ delete_property db u p.id = (db, Except.error property_not_found)
    ∧ (∀ pt sf minp maxp skip limit,
        p ∉ list_properties db u pt sf minp maxp skip limit)
    ∧ (∀ property_id l, list_viewings db u property_id = Except.ok l → v ∉ l) := by
  have hfc : db.contacts.find? (fun x => x.id == c.id && x.tenant_id == u.tenant_id) = none :=
    find_scoped_none Contact.id Contact.tenant_id db.contacts c u.tenant_id hcu hct
  have hfd : db.deals.find? (fun x => x.id == d.id && x.tenant_id == u.tenant_id) = none :=
    find_scoped_none Deal.id Deal.tenant_id db.deals d u.tenant_id hdu hdt
  have hfp : db.properties.find? (fun x => x.id == p.id && x.tenant_id == u.tenant_id) = none :=
    find_scoped_none Property.id Property.tenant_id db.properties p u.tenant_id hpu hpt
  refine ⟨?_, ?_, ?_, ?_, ?_, ?_, ?_, ?_, ?_, ?_, ?_, ?_, ?_⟩
  · simp [get_contact, hfc]
  · intro patch
    simp [update_contact, hfc]
  · simp [delete_contact, hfc]
  · intro search skip limit hmem
    exact hct (mem_list_contacts_tenant db u search skip limit c hmem)
  · simp [get_deal, hfd]
  · intro patch
    simp [update_deal, hfd]
  · simp [delete_deal, hfd]
  · intro stage contact_id skip limit hmem
    exact hdt (mem_list_deals_tenant db u stage contact_id skip limit d hmem)
  · simp [get_property, hfp]
  · intro patch
    simp [update_property, hfp]
  · simp [delete_property, hfp]
  · intro pt sf minp maxp skip limit hmem
    exact hpt (mem_list_properties_tenant db u pt sf minp maxp skip limit p hmem)
  · intro property_id l hok hmem
    exact hvt (mem_list_viewings_tenant db u property_id l v hok hmem).1

/-- Sample user of tenant 2 (concrete evaluation fixture). -/
def userT2 : User :=
  { id := 100, tenant_id := 2, email := "user_b@tenantb.com",
    hashed_password := hash_password "password123",
    is_active := true, is_superuser := false }

/-- Sample contact owned by tenant 1. -/
def contactT1 : Contact :=
  { id := 1, tenant_id := 1, first_name := "Ann", last_name := "Ada",
    email := some "ann@tenanta.com", phone := none, description := none,
    created_at := 10 }

/-- Sample deal owned by tenant 1. -/
def dealT1 : Deal :=
  { id := 2, tenant_id := 1, contact_id := 1, title := "Sale",
    amount := some 1000, stage := DealStage.NEW, description := none,
    created_at := 11 }

/-- Sample property owned by tenant 1. -/
def propertyT1 : Property :=
  { id := 3, tenant_id := 1, title := "Luxury Apartment",
    address := "123 Main St", price := some 500000,
    property_type := PropertyType.APARTMENT,
    status := PropertyStatus.AVAILABLE, description := none,
    bedrooms := none, bathrooms := none, area_sqm := none,
    created_at := 12 }

/-- Sample viewing owned by tenant 1. -/
def viewingT1 : Viewing :=
  { id := 4, tenant_id := 1, property_id := 3, contact_id := 1,
    viewing_date := 50, notes := none, status := "SCHEDULED",
    created_at := 13 }

/-- Sample deal owned by tenant 2 (the acting user's own tenant). -/
def dealT2 : Deal :=
  { id := 5, tenant_id := 2, contact_id := 6, title := "Own deal",
    amount := none, stage := DealStage.NEW, description := none,
    created_at := 14 }

/-- A store holding one entity of each kind owned by tenant 1, one deal
owned by tenant 2, and one active user of tenant 2. -/
def sampleDB : DB :=
  { users := [userT2], contacts := [contactT1], deals := [dealT1, dealT2],
    properties := [propertyT1], viewings := [viewingT1] }

/-- Claim C1 witness: the cross-tenant user of `sampleDB` gets 404 on tenant
1's contact and property and never sees the contact in a listing. -/
theorem tenant_isolation_witness :
    get_contact sampleDB userT2 1 = Except.error contact_not_found
    ∧ get_property sampleDB userT2 3 = Except.error property_not_found
    ∧ contactT1 ∉ list_contacts sampleDB userT2 none 0 100 := by
  have h := tenant_isolation sampleDB userT2 contactT1 (by decide) (by decide)
    dealT1 (by decide) (by decide) propertyT1 (by decide) (by decide)
    viewingT1 (by decide)
  exact ⟨h.1, h.2.2.2.2.2.2.2.2.1, h.2.2.2.1 none 0 100⟩

/-- Claim C2.  Tenant stamping: every create endpoint sets the new entity's
`tenant_id` to the authenticated user's `tenant_id`, taken from
`current_user` and never from the payload — the payload schemas
(`ContactCreate`, `PropertyCreate`, `DealCreate`, `ViewingCreate`,
embedded above from `app/schemas/`) carry no tenant field at all, so no
client-supplied tenant value can influence the result. -/
theorem tenant_stamping (db : DB) (u : User) (newId now : Nat) :
    (∀ ci : ContactCreate, (create_contact db u ci newId now).2.tenant_id = u.tenant_id)
    ∧ (∀ pi : PropertyCreate, (create_property db u pi newId now).2.tenant_id = u.tenant_id)
    ∧ (∀ (di : DealCreate) (dl : Deal),
        (create_deal db u di newId now).2 = Except.ok dl → dl.tenant_id = u.tenant_id)
    ∧ (∀ (property_id : Nat) (vi : ViewingCreate) (vw : Viewing),
        (create_viewing db u property_id vi newId now).2 = Except.ok vw →
        vw.tenant_id = u.tenant_id) := by
  refine ⟨?_, ?_, ?_, ?_⟩
  · intro ci
    simp [create_contact]
  · intro pi
    simp [create_property]
  · intro di dl h
    simp only [create_deal] at h
    cases hf : db.contacts.find?
        (fun c => c.id == di.contact_id && c.tenant_id == u.tenant_id) with
    | none => rw [hf] at h; exact absurd h (by simp)
    | some ct =>
      rw [hf] at h
      have := Except.ok.inj h
      rw [← this]
  · intro property_id vi vw h
    simp only [create_viewing] at h
    cases hf : db.properties.find?
        (fun pr => pr.id == property_id && pr.tenant_id == u.tenant_id) with
    | none => rw [hf] at h; exact absurd h (by simp)
    | some pr =>
      rw [hf] at h
      cases hf2 : db.contacts.find?
          (fun c => c.id == vi.contact_id && c.tenant_id == u.tenant_id) with
      | none => rw [hf2] at h; exact absurd h (by simp)
      | some ct =>
        rw [hf2] at h
        have := Except.ok.inj h
        rw [← this]

/-- Claim C2 witness: creating a contact and a deal as the tenant-2 user of
`sampleDB` — with a deal payload referencing a tenant-2 contact — yields
rows stamped with tenant 2. -/
theorem tenant_stamping_witness :
    (create_contact sampleDB userT2
      { first_name := "Bo", last_name := "Eve", email := none,
        phone := none, description := none } 7 20).2.tenant_id = 2 := by
  have h := (tenant_stamping sampleDB userT2 7 20).1
    { first_name := "Bo", last_name := "Eve", email := none,
      phone := none, description := none }
  exact h

/-- Claim C3.  Cross-reference scoping with atomicity: creating a Deal whose
`contact_id` is a contact of another tenant fails 404 with the
cross-tenant detail and leaves the store unchanged (the contact check
runs before any insert); updating a Deal's `contact_id` re-validates the
new contact under the same `(id, tenant_id)` filter and fails 404
without applying the patch (store unchanged). -/
theorem deal_cross_tenant_reference (db : DB) (u : User) (c : Contact)
    (hcu : ∀ x ∈ db.contacts, x.id = c.id → x = c)
    (hct : c.tenant_id ≠ u.tenant_id) :
    (∀ (di : DealCreate) (newId now : Nat), di.contact_id = c.id →
      create_deal db u di newId now = (db, Except.error deal_contact_not_found))
    ∧ (∀ (d : Deal) (patch : DealUpdate), d ∈ db.deals →
      d.tenant_id = u.tenant_id → patch.contact_id = some c.id →
      update_deal db u d.id patch = (db, Except.error deal_contact_not_found)) := by
  have hf : db.contacts.find? (fun x => x.id == c.id && x.tenant_id == u.tenant_id) = none :=
    find_scoped_none Contact.id Contact.tenant_id db.contacts c u.tenant_id hcu hct
  constructor
  · intro di newId now hdi
    simp [create_deal, hdi, hf]
  · intro d patch hd hdtu hpatch
    have hsome : (db.deals.find? (fun x => x.id == d.id && x.tenant_id == u.tenant_id)).isSome := by
      rw [List.find?_isSome]
      exact ⟨d, hd, by simp [hdtu]⟩
    cases hfind : db.deals.find? (fun x => x.id == d.id && x.tenant_id == u.tenant_id) with
    | none =>
      rw [hfind] at hsome
      exact absurd hsome (by simp)
    | some d0 =>
      simp [update_deal, hfind, hpatch, hf]

/-- Claim C3 witness: as the tenant-2 user, creating a deal on tenant 1's
contact fails 404 without touching the store, and repointing the
tenant-2 deal at that contact also fails 404 without touching it. -/
theorem deal_cross_tenant_reference_witness :
    create_deal sampleDB userT2
      { title := "Steal", amount := none, stage := DealStage.NEW,
        description := none, contact_id := 1 } 9 30
      = (sampleDB, Except.error deal_contact_not_found)
    ∧ update_deal sampleDB userT2 5
      { title := none, amount := none, stage := none,
        description := none, contact_id := some 1 }
      = (sampleDB, Except.error deal_contact_not_found) := by
  have h := deal_cross_tenant_reference sampleDB userT2 contactT1
    (by decide) (by decide)
  exact ⟨h.1 _ 9 30 (by decide), h.2 dealT2 _ (by decide) (by decide) (by decide)⟩

/-- Claim C8 (amended).  Default list ordering: the Contact, Deal and Property
list endpoints return only the tenant's rows ordered by `created_at`
descending; the Viewing list endpoint returns only the tenant's rows for
the property, but ordered by `viewing_date` ascending
(`order_by(Viewing.viewing_date)`), not by creation time. -/
theorem list_default_ordering (db : DB) (u : User) :
    (∀ search skip limit,
      (list_contacts db u search skip limit).Pairwise
        (fun a b => b.created_at ≤ a.created_at)
      ∧ ∀ x ∈ list_contacts db u search skip limit, x.tenant_id = u.tenant_id)
    ∧ (∀ stage contact_id skip limit,
      (list_deals db u stage contact_id skip limit).Pairwise
        (fun a b => b.created_at ≤ a.created_at)
      ∧ ∀ x ∈ list_deals db u stage contact_id skip limit, x.tenant_id = u.tenant_id)
    ∧ (∀ pt sf minp maxp skip limit,
      (list_properties db u pt sf minp maxp skip limit).Pairwise
        (fun a b => b.created_at ≤ a.created_at)
      ∧ ∀ x ∈ list_properties db u pt sf minp maxp skip limit, x.tenant_id = u.tenant_id)
    ∧ (∀ property_id l, list_viewings db u property_id = Except.ok l →
      l.Pairwise (fun a b => a.viewing_date ≤ b.viewing_date)
      ∧ ∀ x ∈ l, x.tenant_id = u.tenant_id) := by
  refine ⟨?_, ?_, ?_, ?_⟩
  · intro search skip limit
    refine ⟨?_, fun x hx => mem_list_contacts_tenant db u search skip limit x hx⟩
    cases search with
    | none => exact pairwise_paginate _ _ _ _
    | some s =>
      by_cases hs : s.isEmpty <;>
        simp only [list_contacts, hs, if_true, if_false, Bool.false_eq_true] <;>
        exact pairwise_paginate _ _ _ _
  · intro stage contact_id skip limit
    refine ⟨?_, fun x hx => mem_list_deals_tenant db u stage contact_id skip limit x hx⟩
    cases stage <;> cases contact_id <;> exact pairwise_paginate _ _ _ _
  · intro pt sf minp maxp skip limit
    refine ⟨?_, fun x hx => mem_list_properties_tenant db u pt sf minp maxp skip limit x hx⟩
    cases pt <;> cases sf <;> cases minp <;> cases maxp <;> exact pairwise_paginate _ _ _ _
  · intro property_id l hok
    refine ⟨?_, fun x hx => (mem_list_viewings_tenant db u property_id l x hok hx).1⟩
    simp only [list_viewings] at hok
    cases hfind : db.properties.find?
        (fun p => p.id == property_id && p.tenant_id == u.tenant_id) with
    | none => rw [hfind] at hok; exact absurd hok (by simp)
    | some pr =>
      rw [hfind] at hok
      have hl : l = sortBy viewingDateAsc
          (db.viewings.filter (fun v => v.property_id == property_id && v.tenant_id == u.tenant_id)) := by
        cases hok
        rfl
      subst hl
      have h := pairwise_sortBy viewingDateAsc ?_ ?_
        (db.viewings.filter (fun v => v.property_id == property_id && v.tenant_id == u.tenant_id))
      · refine h.imp ?_
        intro a b hab
        simpa [viewingDateAsc] using hab
      · intro a b
        simp only [viewingDateAsc, decide_eq_true_eq]
        omega
      · intro a b cc
        simp only [viewingDateAsc, decide_eq_true_eq]
        omega

/-- Sample user of tenant 1 (same tenant as the fixtures above). -/
def userT1 : User :=
  { id := 101, tenant_id := 1, email := "user_a@tenanta.com",
    hashed_password := hash_password "password123",
    is_active := true, is_superuser := false }

/-- A viewing of property 3 created first but scheduled first as well. -/
def viewingEarly : Viewing :=
  { id := 7, tenant_id := 1, property_id := 3, contact_id := 1,
    viewing_date := 1, notes := none, status := "SCHEDULED",
    created_at := 10 }

/-- A viewing of property 3 created later and scheduled later. -/
def viewingLate : Viewing :=
  { id := 8, tenant_id := 1, property_id := 3, contact_id := 1,
    viewing_date := 5, notes := none, status := "SCHEDULED",
    created_at := 20 }

/-- A store for the viewing-ordering counterexample: property 3 of
tenant 1 with two viewings whose creation order and viewing-date order
disagree with each other. -/
def viewDB : DB :=
  { users := [userT1], contacts := [contactT1], deals := [],
    properties := [propertyT1], viewings := [viewingLate, viewingEarly] }

/-- Claim C8 counterexample: `list_viewings` returns the viewings in
`viewing_date` ascending order, which here is not creation-time
descending — `viewingLate` (created at 20) follows `viewingEarly`
(created at 10), so the claimed uniform creation-time-descending
ordering fails for the Viewing entity type. -/
theorem list_viewings_not_creation_desc :
    list_viewings viewDB userT1 3 = Except.ok [viewingEarly, viewingLate]
    ∧ ¬ ([viewingEarly, viewingLate].Pairwise
        (fun a b : Viewing => b.created_at ≤ a.created_at)) := by
  constructor
  · rfl
  · decide

/-- Claim C8 witness: on `viewDB`, tenant 1's contact list is sorted by
`created_at` descending and the viewing list for property 3 is sorted by
`viewing_date` ascending. -/
theorem list_default_ordering_witness :
    ((list_contacts viewDB userT1 none 0 100).Pairwise
      (fun a b => b.created_at ≤ a.created_at))
    ∧ ([viewingEarly, viewingLate].Pairwise
      (fun a b : Viewing => a.viewing_date ≤ b.viewing_date)) := by
  have h := list_default_ordering viewDB userT1
  refine ⟨(h.1 none 0 100).1, ?_⟩
  exact (h.2.2.2 3 [viewingEarly, viewingLate] (by rfl)).1

/-- The resolver `get_current_user` factors through `verify_token`:
decode and claim parsing first (crash included), then the user lookup
and the active/tenant checks. -/
theorem get_current_user_eq (db : DB) (token : JwtToken) (now : Nat) :
    get_current_user db token now =
      match verify_token token now with
      | VerifyResult.crash => Resp.crash
      | VerifyResult.invalid => Resp.error credentials_exception
      | VerifyResult.valid td =>
        match db.users.find? (fun x => x.id == td.user_id) with
        | none => Resp.error credentials_exception
        | some user =>
          if !user.is_active then Resp.error inactive_user_exception
          else if user.tenant_id != td.tenant_id then Resp.error credentials_exception
          else Resp.ok user := by
  unfold get_current_user verify_token
  cases decode_access_token token now with
  | none => rfl
  | some payload =>
    dsimp only
    cases dictGet payload "sub" with
    | none => rfl
    | some subV =>
      cases dictGet payload "tenant_id" with
      | none => rfl
      | some tenV =>
        dsimp only
        cases parseUUID subV with
        | attrError => rfl
        | valueError => rfl
        | ok uid =>
          cases parseUUID tenV with
          | attrError => rfl
          | valueError => rfl
          | ok tid => rfl

/-- Claim C4 (amended).  Identity resolver error taxonomy of
`get_current_user`, in the order the code checks: 401
`credentials_exception` when the token fails decoding, when a required
claim is missing, when a claim is a string that fails UUID parsing
(`ValueError`, caught), or when no user matches the subject; 403
`Inactive user` when the token verifies and the user exists but
`is_active` is false (this check precedes the tenant comparison); 401
when the user is active but the stored `tenant_id` differs from the
token's claim; and the user itself otherwise.  However — contrary to
the original claim's blanket 401 for malformed claims — a signed,
unexpired token whose `sub` or `tenant_id` claim is a non-string value
crashes the resolver: `UUID()` raises `AttributeError`, which the
`except ValueError` in `app/api/deps.py` does not catch (only the
`tenant_id` case is reachable, since jose rejects a non-string `sub` at
decode). -/
theorem identity_resolver_taxonomy (db : DB) (token : JwtToken) (now : Nat) :
    (decode_access_token token now = none →
      get_current_user db token now = Resp.error credentials_exception)
    ∧ (∀ payload, decode_access_token token now = some payload →
      dictGet payload "sub" = none ∨ dictGet payload "tenant_id" = none →
      get_current_user db token now = Resp.error credentials_exception)
    ∧ (∀ payload subV tenV, decode_access_token token now = some payload →
      dictGet payload "sub" = some subV →
      dictGet payload "tenant_id" = some tenV →
      parseUUID subV = UUIDParse.valueError →
      get_current_user db token now = Resp.error credentials_exception)
    ∧ (∀ payload subV tenV uid, decode_access_token token now = some payload →
      dictGet payload "sub" = some subV →
      dictGet payload "tenant_id" = some tenV →
      parseUUID subV = UUIDParse.ok uid →
      parseUUID tenV = UUIDParse.valueError →
      get_current_user db token now = Resp.error credentials_exception)
    ∧ (∀ payload subV tenV, decode_access_token token now = some payload →
      dictGet payload "sub" = some subV →
      dictGet payload "tenant_id" = some tenV →
      parseUUID subV = UUIDParse.attrError →
      get_current_user db token now = Resp.crash)
    ∧ (∀ payload subV tenV uid, decode_access_token token now = some payload →
      dictGet payload "sub" = some subV →
      dictGet payload "tenant_id" = some tenV →
      parseUUID subV = UUIDParse.ok uid →
      parseUUID tenV = UUIDParse.attrError →
      get_current_user db token now = Resp.crash)
    ∧ (∀ td, verify_token token now = VerifyResult.valid td →
      db.users.find? (fun x => x.id == td.user_id) = none →
      get_current_user db token now = Resp.error credentials_exception)
    ∧ (∀ td user, verify_token token now = VerifyResult.valid td →
      db.users.find? (fun x => x.id == td.user_id) = some user →
      user.is_active = false →
      get_current_user db token now = Resp.error inactive_user_exception)
    ∧ (∀ td user, verify_token token now = VerifyResult.valid td →
      db.users.find? (fun x => x.id == td.user_id) = some user →
      user.is_active = true → user.tenant_id ≠ td.tenant_id →
      get_current_user db token now = Resp.error credentials_exception)
    ∧ (∀ td user, verify_token token now = VerifyResult.valid td →
      db.users.find? (fun x => x.id == td.user_id) = some user →
      user.is_active = true → user.tenant_id = td.tenant_id →
      get_current_user db token now = Resp.ok user) := by
  refine ⟨?_, ?_, ?_, ?_, ?_, ?_, ?_, ?_, ?_, ?_⟩
  · intro h
    have hv : verify_token token now = VerifyResult.invalid := by
      unfold verify_token
      rw [h]
    rw [get_current_user_eq, hv]
  · intro payload hdec hmiss
    have hv : verify_token token now = VerifyResult.invalid := by
      unfold verify_token
      rw [hdec]
      dsimp only
      rcases hmiss with h1 | h1
      · rw [h1]
      · rw [h1]
        cases dictGet payload "sub" <;> rfl
    rw [get_current_user_eq, hv]
  · intro payload subV tenV hdec hsub hten hpsub
    have hv : verify_token token now = VerifyResult.invalid := by
      unfold verify_token
      rw [hdec]
      dsimp only
      rw [hsub, hten]
      dsimp only
      rw [hpsub]
    rw [get_current_user_eq, hv]
  · intro payload subV tenV uid hdec hsub hten hpsub hpten
    have hv : verify_token token now = VerifyResult.invalid := by
      unfold verify_token
      rw [hdec]
      dsimp only
      rw [hsub, hten]
      dsimp only
      rw [hpsub]
      dsimp only
      rw [hpten]
    rw [get_current_user_eq, hv]
  · intro payload subV tenV hdec hsub hten hpsub
    have hv : verify_token token now = VerifyResult.crash := by
      unfold verify_token
      rw [hdec]
      dsimp only
      rw [hsub, hten]
      dsimp only
      rw [hpsub]
    rw [get_current_user_eq, hv]
  · intro payload subV tenV uid hdec hsub hten hpsub hpten
    have hv : verify_token token now = VerifyResult.crash := by
      unfold verify_token
      rw [hdec]
      dsimp only
      rw [hsub, hten]
      dsimp only
      rw [hpsub]
      dsimp only
      rw [hpten]
    rw [get_current_user_eq, hv]
  · intro td hv hfind
    rw [get_current_user_eq, hv]
    simp [hfind]
  · intro td user hv hfind hact
    rw [get_current_user_eq, hv]
    simp [hfind, hact]
  · intro td user hv hfind hact hten
    rw [get_current_user_eq, hv]
    simp [hfind, hact, hten]
  · intro td user hv hfind hact hten
    rw [get_current_user_eq, hv]
    simp [hfind, hact, hten]

/-- A disabled tenant-2 user. -/
def userInactive : User :=
  { id := 102, tenant_id := 2, email := "gone@tenantb.com",
    hashed_password := hash_password "password123",
    is_active := false, is_superuser := false }

/-- A user whose stored tenant (9) no longer matches the tenant claim
his old tokens carry (2). -/
def userMoved : User :=
  { id := 103, tenant_id := 9, email := "moved@tenantb.com",
    hashed_password := hash_password "password123",
    is_active := true, is_superuser := false }

/-- Store for the identity-resolver cases. -/
def authDB : DB :=
  { users := [userT2, userInactive, userMoved], contacts := [],
    deals := [], properties := [], viewings := [] }

/-- Claim C4 counterexample: a token signed with the configured secret
whose `tenant_id` claim is the number 123 (not a string) makes the
resolver crash with the uncaught `AttributeError` — a 500 — and not the
401 `credentials_exception` the original claim promises for a malformed
claim. -/
theorem identity_resolver_numeric_tenant_crash :
    get_current_user authDB
      { payload := [("sub", JVal.uuidStr 100), ("tenant_id", JVal.numVal 123)],
        signedWith := JWT_SECRET } 0 = Resp.crash
    ∧ get_current_user authDB
      { payload := [("sub", JVal.uuidStr 100), ("tenant_id", JVal.numVal 123)],
        signedWith := JWT_SECRET } 0 ≠ Resp.error credentials_exception := by
  constructor
  · decide
  · decide

/-- Claim C4 witness: a token with a bad signature gives 401; a valid token of
the disabled user gives 403; a valid token whose tenant claim no longer
matches the stored tenant gives 401; a good token resolves to the user;
and a signed token carrying a non-string tenant claim crashes. -/
theorem identity_resolver_taxonomy_witness :
    get_current_user authDB { payload := [("sub", JVal.uuidStr 100)], signedWith := "forged" } 0
      = Resp.error credentials_exception
    ∧ get_current_user authDB (create_access_token 102 2 0 none []) 5
      = Resp.error inactive_user_exception
    ∧ get_current_user authDB (create_access_token 103 2 0 none []) 5
      = Resp.error credentials_exception
    ∧ get_current_user authDB (create_access_token 100 2 0 none []) 5
      = Resp.ok userT2
    ∧ get_current_user authDB
      { payload := [("sub", JVal.uuidStr 100), ("tenant_id", JVal.numVal 7)],
        signedWith := JWT_SECRET } 5 = Resp.crash := by
  refine ⟨?_, ?_, ?_, ?_, ?_⟩
  · exact (identity_resolver_taxonomy authDB _ 0).1 (by decide)
  · exact (identity_resolver_taxonomy authDB _ 5).2.2.2.2.2.2.2.1
      { user_id := 102, tenant_id := 2 } userInactive (by decide) (by decide) (by decide)
  · exact (identity_resolver_taxonomy authDB _ 5).2.2.2.2.2.2.2.2.1
      { user_id := 103, tenant_id := 2 } userMoved (by decide) (by decide) (by decide) (by decide)
  · exact (identity_resolver_taxonomy authDB _ 5).2.2.2.2.2.2.2.2.2
      { user_id := 100, tenant_id := 2 } userT2 (by decide) (by decide) (by decide) (by decide)
  · exact (identity_resolver_taxonomy authDB _ 5).2.2.2.2.2.1
      [("sub", JVal.uuidStr 100), ("tenant_id", JVal.numVal 7)]
      (JVal.uuidStr 100) (JVal.numVal 7) 100
      (by decide) (by decide) (by decide) (by decide) (by decide)

/-- Verifying a standard issued payload (signed with the configured
secret) succeeds exactly while the clock is before the `exp` claim, and
then yields the subject and tenant of the payload. -/
theorem verify_token_std (uid tid iat expAt t : Nat) :
    verify_token
      { payload := [("sub", JVal.uuidStr uid), ("tenant_id", JVal.uuidStr tid),
          ("exp", JVal.numVal expAt), ("iat", JVal.numVal iat),
          ("type", JVal.strVal "access")],
        signedWith := JWT_SECRET } t
      = if t < expAt then VerifyResult.valid { user_id := uid, tenant_id := tid }
        else VerifyResult.invalid := by
  by_cases h : t < expAt <;>
    simp [verify_token, decode_access_token, claimsValid, dictGet, List.find?, parseUUID, h]

/-- Claim C5.  Token round-trip: a token issued for `(user_id, tenant_id)` with
a positive ttl verifies to exactly those claims at any time strictly
before `now + ttl`, and to Invalid at or after that expiry; with no ttl
given, the default of `ACCESS_TOKEN_EXPIRE_MINUTES = 30` minutes
applies.  (A ttl of 0 is excluded: Python's `if expires_delta:` treats a
zero timedelta as falsy and falls back to the default.) -/
theorem token_round_trip (user_id tenant_id now t ttl : Nat) (hpos : 0 < ttl) :
    (t < now + ttl →
      verify_token (create_access_token user_id tenant_id now (some ttl) []) t
        = VerifyResult.valid { user_id := user_id, tenant_id := tenant_id })
    ∧ (now + ttl ≤ t →
      verify_token (create_access_token user_id tenant_id now (some ttl) []) t
        = VerifyResult.invalid)
    ∧ (t < now + ACCESS_TOKEN_EXPIRE_MINUTES * 60 →
      verify_token (create_access_token user_id tenant_id now none []) t
        = VerifyResult.valid { user_id := user_id, tenant_id := tenant_id })
    ∧ (now + ACCESS_TOKEN_EXPIRE_MINUTES * 60 ≤ t →
      verify_token (create_access_token user_id tenant_id now none []) t
        = VerifyResult.invalid) := by
  have hne : ttl ≠ 0 := by omega
  have hsome : create_access_token user_id tenant_id now (some ttl) [] =
      { payload := [("sub", JVal.uuidStr user_id), ("tenant_id", JVal.uuidStr tenant_id),
          ("exp", JVal.numVal (now + ttl)), ("iat", JVal.numVal now),
          ("type", JVal.strVal "access")],
        signedWith := JWT_SECRET } := by
    simp [create_access_token, dictUpdate, hne]
  have hnone : create_access_token user_id tenant_id now none [] =
      { payload := [("sub", JVal.uuidStr user_id), ("tenant_id", JVal.uuidStr tenant_id),
          ("exp", JVal.numVal (now + ACCESS_TOKEN_EXPIRE_MINUTES * 60)),
          ("iat", JVal.numVal now), ("type", JVal.strVal "access")],
        signedWith := JWT_SECRET } := rfl
  refine ⟨?_, ?_, ?_, ?_⟩
  · intro ht
    rw [hsome, verify_token_std, if_pos ht]
  · intro ht
    rw [hsome, verify_token_std, if_neg (by omega)]
  · intro ht
    rw [hnone, verify_token_std, if_pos ht]
  · intro ht
    rw [hnone, verify_token_std, if_neg (by omega)]

/-- Claim C5 witness: a token issued at time 1000 with ttl 60 verifies at time
1059 to its subject and tenant, and is Invalid at time 1060 (its exact
expiry instant). -/
theorem token_round_trip_witness :
    verify_token (create_access_token 1 2 1000 (some 60) []) 1059
      = VerifyResult.valid { user_id := 1, tenant_id := 2 }
    ∧ verify_token (create_access_token 1 2 1000 (some 60) []) 1060
      = VerifyResult.invalid := by
  constructor
  · exact (token_round_trip 1 2 1000 1059 60 (by decide)).1 (by decide)
  · exact (token_round_trip 1 2 1000 1060 60 (by decide)).2.1 (by decide)

/-- Model of `decode_access_token` either fails or returns the token's own
payload whole — never a part of it. -/
theorem decode_shape (token : JwtToken) (now : Nat) :
    decode_access_token token now = none
    ∨ decode_access_token token now = some token.payload := by
  unfold decode_access_token
  by_cases h : (token.signedWith == JWT_SECRET && claimsValid token.payload now) = true
  · right
    rw [if_pos h]
  · left
    rw [if_neg h]

/-- A claim value parses as a UUID only if it is the string form of that
UUID. -/
theorem parseUUID_eq_ok (v : JVal) (u : Nat) (h : parseUUID v = UUIDParse.ok u) :
    v = JVal.uuidStr u := by
  cases v with
  | uuidStr a =>
    simp only [parseUUID, UUIDParse.ok.injEq] at h
    rw [h]
  | numVal n => simp [parseUUID] at h
  | strVal s => simp [parseUUID] at h

/-- Claim C6 (amended).  Token verification returns Invalid (never
partial claims) on a bad signature, at or after expiry, when the `sub`
or `tenant_id` claim is missing, and when either claim is a string that
fails identifier parsing (a caught `ValueError`); whenever it succeeds,
both required claims were present and fully parsed.  However — contrary
to the original claim's exception-totality — on a decoded token whose
`sub` or `tenant_id` claim is a non-string value, `UUID()` raises an
`AttributeError` that `except ValueError` in `app/api/deps.py` does not
catch, so verification crashes (500) instead of returning Invalid:
`verify_token` is total into `{Valid, Invalid, Crash}`, not
`{Valid, Invalid}`. -/
theorem verify_token_totality (token : JwtToken) (now : Nat) :
    (token.signedWith ≠ JWT_SECRET → verify_token token now = VerifyResult.invalid)
    ∧ (∀ e, dictGet token.payload "exp" = some (JVal.numVal e) → e ≤ now →
      verify_token token now = VerifyResult.invalid)
    ∧ (dictGet token.payload "sub" = none ∨ dictGet token.payload "tenant_id" = none →
      verify_token token now = VerifyResult.invalid)
    ∧ (∀ subV tenV, dictGet token.payload "sub" = some subV →
      dictGet token.payload "tenant_id" = some tenV →
      parseUUID subV = UUIDParse.valueError →
      verify_token token now = VerifyResult.invalid)
    ∧ (∀ subV tenV uid, dictGet token.payload "sub" = some subV →
      dictGet token.payload "tenant_id" = some tenV →
      parseUUID subV = UUIDParse.ok uid →
      parseUUID tenV = UUIDParse.valueError →
      verify_token token now = VerifyResult.invalid)
    ∧ (∀ payload subV tenV, decode_access_token token now = some payload →
      dictGet payload "sub" = some subV →
      dictGet payload "tenant_id" = some tenV →
      parseUUID subV = UUIDParse.attrError →
      verify_token token now = VerifyResult.crash)
    ∧ (∀ payload subV tenV uid, decode_access_token token now = some payload →
      dictGet payload "sub" = some subV →
      dictGet payload "tenant_id" = some tenV →
      parseUUID subV = UUIDParse.ok uid →
      parseUUID tenV = UUIDParse.attrError →
      verify_token token now = VerifyResult.crash)
    ∧ (∀ td, verify_token token now = VerifyResult.valid td →
      dictGet token.payload "sub" = some (JVal.uuidStr td.user_id)
      ∧ dictGet token.payload "tenant_id" = some (JVal.uuidStr td.tenant_id)) := by
  refine ⟨?_, ?_, ?_, ?_, ?_, ?_, ?_, ?_⟩
  · intro h
    simp [verify_token, decode_access_token, h]
  · intro e hexp hle
    have hcv : claimsValid token.payload now = false := by
      unfold claimsValid
      rw [hexp]
      simp [Nat.not_lt.mpr hle]
    simp [verify_token, decode_access_token, hcv]
  · intro hmiss
    rcases decode_shape token now with hd | hd
    · unfold verify_token
      rw [hd]
    · unfold verify_token
      rw [hd]
      dsimp only
      rcases hmiss with h1 | h1
      · rw [h1]
      · rw [h1]
        cases dictGet token.payload "sub" <;> rfl
  · intro subV tenV hsub hten hpsub
    rcases decode_shape token now with hd | hd
    · unfold verify_token
      rw [hd]
    · unfold verify_token
      rw [hd]
      dsimp only
      rw [hsub, hten]
      dsimp only
      rw [hpsub]
  · intro subV tenV uid hsub hten hpsub hpten
    rcases decode_shape token now with hd | hd
    · unfold verify_token
      rw [hd]
    · unfold verify_token
      rw [hd]
      dsimp only
      rw [hsub, hten]
      dsimp only
      rw [hpsub]
      dsimp only
      rw [hpten]
  · intro payload subV tenV hdec hsub hten hpsub
    unfold verify_token
    rw [hdec]
    dsimp only
    rw [hsub, hten]
    dsimp only
    rw [hpsub]
  · intro payload subV tenV uid hdec hsub hten hpsub hpten
    unfold verify_token
    rw [hdec]
    dsimp only
    rw [hsub, hten]
    dsimp only
    rw [hpsub]
    dsimp only
    rw [hpten]
  · intro td h
    unfold verify_token at h
    rcases decode_shape token now with hd | hd
    · rw [hd] at h
      exact absurd h (by simp)
    · rw [hd] at h
      dsimp only at h
      cases hsub : dictGet token.payload "sub" with
      | none =>
        rw [hsub] at h
        exact absurd h (by simp)
      | some subV =>
        rw [hsub] at h
        cases hten : dictGet token.payload "tenant_id" with
        | none =>
          rw [hten] at h
          exact absurd h (by simp)
        | some tenV =>
          rw [hten] at h
          dsimp only at h
          cases hps : parseUUID subV with
          | valueError =>
            rw [hps] at h
            exact absurd h (by simp)
          | attrError =>
            rw [hps] at h
            exact absurd h (by simp)
          | ok uid =>
            rw [hps] at h
            cases hpt : parseUUID tenV with
            | valueError =>
              rw [hpt] at h
              exact absurd h (by simp)
            | attrError =>
              rw [hpt] at h
              exact absurd h (by simp)
            | ok tid =>
              rw [hpt] at h
              dsimp only at h
              have htd := VerifyResult.valid.inj h
              rw [← htd, parseUUID_eq_ok subV uid hps,
                parseUUID_eq_ok tenV tid hpt]
              exact ⟨rfl, rfl⟩

/-- Claim C6 counterexample: a token signed with the configured secret
whose `tenant_id` claim is the number 123 crashes verification (the
uncaught `AttributeError` of `UUID(123)`), refuting both the original
claim's "never lets an exception escape" and its "returns Invalid on a
claim that is not parseable as an entity identifier". -/
theorem verify_token_numeric_tenant_crash :
    verify_token
      { payload := [("sub", JVal.uuidStr 1), ("tenant_id", JVal.numVal 123)],
        signedWith := JWT_SECRET } 0 = VerifyResult.crash
    ∧ verify_token
      { payload := [("sub", JVal.uuidStr 1), ("tenant_id", JVal.numVal 123)],
        signedWith := JWT_SECRET } 0 ≠ VerifyResult.invalid := by
  constructor
  · decide
  · decide

/-- Claim C6 witness: Invalid on a forged signature, on an expired token,
on a missing `tenant_id` claim and on a malformed `sub` string; crash on
a numeric `tenant_id` claim; and a successful verification yields both
claims. -/
theorem verify_token_totality_witness :
    verify_token { payload := [("sub", JVal.uuidStr 1)], signedWith := "forged" } 0
      = VerifyResult.invalid
    ∧ verify_token (create_access_token 1 2 0 (some 60) []) 60 = VerifyResult.invalid
    ∧ verify_token { payload := [("sub", JVal.uuidStr 1)], signedWith := JWT_SECRET } 0
      = VerifyResult.invalid
    ∧ verify_token
        { payload := [("sub", JVal.strVal "not-a-uuid"), ("tenant_id", JVal.uuidStr 2)],
          signedWith := JWT_SECRET } 0 = VerifyResult.invalid
    ∧ verify_token
        { payload := [("sub", JVal.uuidStr 1), ("tenant_id", JVal.numVal 9)],
          signedWith := JWT_SECRET } 0 = VerifyResult.crash
    ∧ dictGet (create_access_token 1 2 0 (some 60) []).payload "sub"
        = some (JVal.uuidStr 1) := by
  refine ⟨?_, ?_, ?_, ?_, ?_, ?_⟩
  · exact (verify_token_totality _ 0).1 (by decide)
  · exact (verify_token_totality _ 60).2.1 60 (by decide) (by decide)
  · exact (verify_token_totality _ 0).2.2.1 (Or.inr (by decide))
  · exact (verify_token_totality _ 0).2.2.2.1 (JVal.strVal "not-a-uuid")
      (JVal.uuidStr 2) (by decide) (by decide) (by decide)
  · exact (verify_token_totality _ 0).2.2.2.2.2.2.1
      [("sub", JVal.uuidStr 1), ("tenant_id", JVal.numVal 9)]
      (JVal.uuidStr 1) (JVal.numVal 9) 1
      (by decide) (by decide) (by decide) (by decide) (by decide)
  · exact ((verify_token_totality (create_access_token 1 2 0 (some 60) []) 0).2.2.2.2.2.2.2
      { user_id := 1, tenant_id := 2 } (by decide)).1

/-- Claim C7 (amended).  Credential uniformity holds when the email
matches at most one stored user: a login with an email matching no user
and a login with a wrong password for the (unique) user of an email
raise the very same `HTTPException` value — status 401, detail
`"Incorrect email or password"`, `WWW-Authenticate: Bearer` header — so
the two failures are indistinguishable to the caller; only after the
password verifies does an inactive account produce the distinct 403
`"Inactive user account"`.  However — contrary to the original claim's
"for every login request" — when the same email is stored under two
tenants (permitted by the per-tenant constraint `uq_user_tenant_email`;
the spec flags this in its open question A), `scalar_one_or_none` raises
`MultipleResultsFound`, an uncaught exception (500), instead of the
uniform 401. -/
theorem credential_uniformity (db : DB) (now : Nat) :
    (∀ email pw, db.users.filter (fun u => u.email == email) = [] →
      login db email pw now = Resp.error incorrect_credentials_exception)
    ∧ (∀ email pw user, db.users.filter (fun u => u.email == email) = [user] →
      verify_password pw user.hashed_password = false →
      login db email pw now = Resp.error incorrect_credentials_exception)
    ∧ (∀ email1 pw1 email2 pw2 user,
      db.users.filter (fun u => u.email == email1) = [] →
      db.users.filter (fun u => u.email == email2) = [user] →
      verify_password pw2 user.hashed_password = false →
      login db email1 pw1 now = login db email2 pw2 now)
    ∧ (∀ email pw user, db.users.filter (fun u => u.email == email) = [user] →
      verify_password pw user.hashed_password = true → user.is_active = false →
      login db email pw now = Resp.error inactive_account_exception)
    ∧ (∀ email pw u1 u2 rest,
      db.users.filter (fun u => u.email == email) = u1 :: u2 :: rest →
      login db email pw now = Resp.crash) := by
  refine ⟨?_, ?_, ?_, ?_, ?_⟩
  · intro email pw h
    simp [login, scalar_one_or_none, h]
  · intro email pw user hfil hpw
    simp [login, scalar_one_or_none, hfil, hpw]
  · intro email1 pw1 email2 pw2 user h1 h2 hpw
    simp [login, scalar_one_or_none, h1, h2, hpw]
  · intro email pw user hfil hpw hact
    simp [login, scalar_one_or_none, hfil, hpw, hact]
  · intro email pw u1 u2 rest hfil
    simp [login, scalar_one_or_none, hfil]

/-- A tenant-1 user and a tenant-2 user sharing one email — allowed by
the per-tenant uniqueness constraint `uq_user_tenant_email`. -/
def userShared1 : User :=
  { id := 110, tenant_id := 1, email := "shared@dup.com",
    hashed_password := hash_password "password123",
    is_active := true, is_superuser := false }

/-- The tenant-2 holder of the duplicated email. -/
def userShared2 : User :=
  { id := 111, tenant_id := 2, email := "shared@dup.com",
    hashed_password := hash_password "password123",
    is_active := true, is_superuser := false }

/-- Store in which one email is held by users of two tenants. -/
def dupDB : DB :=
  { users := [userShared1, userShared2], contacts := [], deals := [],
    properties := [], viewings := [] }

/-- Claim C7 counterexample: on a store where two tenants share an email,
a login for that existing email with a wrong password crashes with the
uncaught `MultipleResultsFound` (500) while a nonexistent email still
gets the uniform 401 — the two failures differ, refuting the original
claim's unconditional uniformity. -/
theorem login_duplicate_email_crash :
    login dupDB "shared@dup.com" "wrongpass" 0 = Resp.crash
    ∧ login dupDB "ghost@dup.com" "wrongpass" 0
      = Resp.error incorrect_credentials_exception
    ∧ login dupDB "shared@dup.com" "wrongpass" 0
      ≠ login dupDB "ghost@dup.com" "wrongpass" 0 := by
  refine ⟨?_, ?_, ?_⟩
  · decide
  · decide
  · decide

/-- Claim C7 witness: on `authDB` (all emails unique), an unknown email
and a wrong password for the existing user produce equal 401 responses,
the inactive account with the correct password gets the 403, and on
`dupDB` the duplicated email crashes. -/
theorem credential_uniformity_witness :
    login authDB "nobody@nowhere.com" "password123" 0
      = Resp.error incorrect_credentials_exception
    ∧ login authDB "user_b@tenantb.com" "wrongpass" 0
      = Resp.error incorrect_credentials_exception
    ∧ login authDB "nobody@nowhere.com" "password123" 0
      = login authDB "user_b@tenantb.com" "wrongpass" 0
    ∧ login authDB "gone@tenantb.com" "password123" 0
      = Resp.error inactive_account_exception
    ∧ login dupDB "shared@dup.com" "anypass" 0 = Resp.crash := by
  have h := credential_uniformity authDB 0
  refine ⟨?_, ?_, ?_, ?_, ?_⟩
  · exact h.1 "nobody@nowhere.com" "password123" (by decide)
  · exact h.2.1 "user_b@tenantb.com" "wrongpass" userT2 (by decide) (by decide)
  · exact h.2.2.1 "nobody@nowhere.com" "password123" "user_b@tenantb.com" "wrongpass"
      userT2 (by decide) (by decide) (by decide)
  · exact h.2.2.2.1 "gone@tenantb.com" "password123" userInactive
      (by decide) (by decide) (by decide)
  · exact (credential_uniformity dupDB 0).2.2.2.2 "shared@dup.com" "anypass"
      userShared1 userShared2 [] (by decide)

/-- Claim C9.  The `"type": "access"` tag is written at issuance but never
checked at verification: `decode_access_token` returns the full payload
of any token signed with the configured secret whose registered claims
pass validation, whatever its `"type"` claim holds — including a missing
tag or one different from `"access"`, since `claimsValid` never reads
`"type"` and the payload here is universally quantified. -/
theorem decode_ignores_type_tag :
    (∀ user_id tenant_id now expires_delta,
      dictGet (create_access_token user_id tenant_id now expires_delta []).payload "type"
        = some (JVal.strVal "access"))
    ∧ (∀ (p : ClaimsD) (now : Nat), claimsValid p now = true →
      decode_access_token { payload := p, signedWith := JWT_SECRET } now = some p) := by
  constructor
  · intro user_id tenant_id now expires_delta
    cases expires_delta with
    | none => rfl
    | some dl =>
      by_cases h : dl = 0 <;>
        simp [create_access_token, dictUpdate, dictGet, List.find?, h]
  · intro p now h
    simp [decode_access_token, h]

/-- Claim C9 witness: a signed, unexpired token whose `"type"` claim is
`"refresh"` is decoded to its full payload. -/
theorem decode_ignores_type_tag_witness :
    decode_access_token
      { payload := [("sub", JVal.uuidStr 1), ("tenant_id", JVal.uuidStr 2),
          ("type", JVal.strVal "refresh")],
        signedWith := JWT_SECRET } 0
      = some [("sub", JVal.uuidStr 1), ("tenant_id", JVal.uuidStr 2),
          ("type", JVal.strVal "refresh")] := by
  exact decode_ignores_type_tag.2
    [("sub", JVal.uuidStr 1), ("tenant_id", JVal.uuidStr 2),
      ("type", JVal.strVal "refresh")] 0 (by decide)

/-- After `dictSet d k v`, key `k` maps to `v` (whether it replaced an
existing binding or was appended). -/
theorem dictGet_dictSet (d : ClaimsD) (k : String) (v : JVal) :
    dictGet (dictSet d k v) k = some v := by
  unfold dictSet
  by_cases h : d.any (fun kv => kv.1 == k) = true
  · rw [if_pos h]
    induction d with
    | nil => simp at h
    | cons kv tl ih =>
      rw [List.map_cons]
      by_cases hk : (kv.1 == k) = true
      · rw [if_pos hk]
        unfold dictGet
        rw [List.find?_cons_of_pos _ (by simp)]
        rfl
      · rw [if_neg hk]
        have hk2 : (kv.1 == k) = false := by
          simp only [Bool.not_eq_true] at hk
          exact hk
        have h' : tl.any (fun kv => kv.1 == k) = true := by
          rw [List.any_cons, hk2] at h
          simpa using h
        unfold dictGet
        rw [List.find?_cons_of_neg _ (by simp [hk2])]
        exact ih h'
  · rw [if_neg h]
    have hnone : d.find? (fun kv => kv.1 == k) = none := by
      rw [List.find?_eq_none]
      intro kv hkv
      by_cases hkk : (kv.1 == k) = true
      · exact absurd (List.any_eq_true.mpr ⟨kv, hkv, hkk⟩) h
      · simpa using hkk
    unfold dictGet
    rw [List.find?_append, hnone]
    simp [List.find?]

/-- Claim C10.  Caller-supplied `additional_claims` override the reserved
claims: because `to_encode.update(additional_claims)` runs after the
standard claims are written, a binding `(k, v)` in `additional_claims`
ends up as the token's value for `k` — also when `k` is `"sub"`,
`"tenant_id"` or `"exp"`, displacing the `user_id`, `tenant_id` or
computed-expiry arguments. -/
theorem additional_claims_override (user_id tenant_id now : Nat)
    (expires_delta : Option Nat) (k : String) (v : JVal) :
    dictGet (create_access_token user_id tenant_id now expires_delta [(k, v)]).payload k
      = some v :=
  dictGet_dictSet _ k v

end RealEstateAPI
